import Mathlib

/-!
Shallow embedding of the express-maintenance-mode middleware
(src/index.ts, class ExpressMaintenance).

The per-request handler is modelled as a pure function from
  (configuration, gate state, current time, value the external read would
   return if invoked, request)
to an outcome carrying the produced response (or passthrough), the new gate
state, the number of invocations of the external read function, and the list
of values passed to the external write function.

Machine integers of the source (timestamps, status codes) are modelled as Nat.
String containment and suffix tests of the source (url.includes, the
regular-expression suffix test of isMaintenanceRequest on a literal
management path) are modelled on the underlying character lists.
-/

namespace ExpressMaintenance

/-- enum ServerMode of the source. -/
inductive ServerMode where
  | default
  | maintenance
deriving DecidableEq

/-- The string the template literal renders a ServerMode as. -/
def ServerMode.toStr : ServerMode → String
  | .default => "default"
  | .maintenance => "maintenance"

/-- interface MaintenanceResponseOptions: statusCode and body. -/
structure MaintenanceResponseOptions (Body : Type) where
  statusCode : Nat
  body : Body
deriving DecidableEq

/-- interface MaintenanceState: currentServerMode and maintenanceResponseOptions
(the latter may be undefined at runtime, hence Option). -/
structure MaintenanceState (Body : Type) where
  currentServerMode : ServerMode
  maintenanceResponseOptions : Option (MaintenanceResponseOptions Body)
deriving DecidableEq

/-- The constructor-time, immutable configuration of the gate.
hasGetExternal and hasSetExternal record whether the optional external
read and write functions are configured. -/
structure Config where
  url : String
  apiBasePath : String
  accessKey : Option String
  localMaintenanceStateTTL : Nat
  hasGetExternal : Bool
  hasSetExternal : Bool
deriving DecidableEq

/-- The mutable fields of the ExpressMaintenance instance. -/
structure GateState (Body : Type) where
  lastStateUpdateTimestamp : Nat
  currentServerMode : ServerMode
  maintenanceResponseOptions : Option (MaintenanceResponseOptions Body)
deriving DecidableEq

/-- The request fields the middleware consumes: method, full url (path plus
query string, as express request.url), path (without query string, as express
request.path), the accessKey query parameter, and the parsed body. -/
structure Request (Body : Type) where
  method : String
  url : String
  path : String
  queryAccessKey : Option String
  body : Option (MaintenanceResponseOptions Body)
deriving DecidableEq

/-- The JSON payload a response carries. -/
inductive Payload (Body : Type) where
  | raw (body : Body)
  | message (msg : String)
  | messageWithOptions (msg : String) (options : Option (MaintenanceResponseOptions Body))
deriving DecidableEq

/-- The observable outcome of one middleware invocation: a response with a
status code and payload, a passthrough (next()), or a crash (the blocked
branch dereferencing undefined maintenanceResponseOptions). -/
inductive HandleResult (Body : Type) where
  | respond (statusCode : Nat) (payload : Payload Body)
  | passthrough
  | crash
deriving DecidableEq

/-- isItTimeToUpdateLocalMaintenanceState:
lastStateUpdateTimestamp.getTime() + localMaintenanceStateTTL < Date.now(). -/
def isItTimeToUpdateLocalMaintenanceState (cfg : Config) (st : GateState Body)
    (now : Nat) : Bool :=
  decide (st.lastStateUpdateTimestamp + cfg.localMaintenanceStateTTL < now)

/-- isServerInMaintenanceMode: currentServerMode === ServerMode.maintenance. -/
def isServerInMaintenanceMode (st : GateState Body) : Bool :=
  decide (st.currentServerMode = ServerMode.maintenance)

/-- isApiRequest: request.url.includes(this.apiBasePath). -/
def isApiRequest (cfg : Config) (req : Request Body) : Bool :=
  decide (cfg.apiBasePath.data <:+: req.url.data)

/-- isMaintenanceRequest: the regular expression test anchored at the end,
for a literal management path a suffix test on request.path. -/
def isMaintenanceRequest (cfg : Config) (req : Request Body) : Bool :=
  decide (cfg.url.data <:+ req.path.data)

/-- JavaScript truthiness of the optional accessKey string. -/
def jsTruthy : Option String → Bool
  | none => false
  | some s => decide (s ≠ "")

/-- The authorization test of the middleware:
this.accessKey && accessKey !== this.accessKey. -/
def authFailed (cfg : Config) (req : Request Body) : Bool :=
  jsTruthy cfg.accessKey && decide (req.queryAccessKey ≠ cfg.accessKey)

/-- getLocalMaintenanceState. -/
def getLocalMaintenanceState (st : GateState Body) : MaintenanceState Body :=
  { currentServerMode := st.currentServerMode
    maintenanceResponseOptions := st.maintenanceResponseOptions }

/-- updateLocalMaintenanceState. extRead is the value the configured external
read function returns if it is invoked on this request (none models an
empty/undefined return). The second component counts its invocations. -/
def updateLocalMaintenanceState (cfg : Config) (st : GateState Body) (now : Nat)
    (extRead : Option (MaintenanceState Body)) : GateState Body × Nat :=
  if cfg.hasGetExternal && isItTimeToUpdateLocalMaintenanceState cfg st now then
    match extRead with
    | none => (st, 1)
    | some ext =>
        ({ lastStateUpdateTimestamp := now
           currentServerMode := ext.currentServerMode
           maintenanceResponseOptions := ext.maintenanceResponseOptions }, 1)
  else (st, 0)

/-- The observable effects of one middleware invocation. -/
structure HandleOutcome (Body : Type) where
  result : HandleResult Body
  state : GateState Body
  externalReads : Nat
  externalWrites : List (MaintenanceState Body)
deriving DecidableEq

/-- The body of the middleware after the await of updateLocalMaintenanceState:
blocking check, then management check (authorization, then dispatch on the
method), then passthrough. st1 and reads are the state and read count the
refresh step produced. -/
def dispatch (cfg : Config) (st1 : GateState Body) (reads : Nat)
    (req : Request Body) : HandleOutcome Body :=
  if isServerInMaintenanceMode st1 && isApiRequest cfg req then
    match st1.maintenanceResponseOptions with
    | some options =>
        { result := .respond options.statusCode (.raw options.body)
          state := st1, externalReads := reads, externalWrites := [] }
    | none =>
        { result := .crash
          state := st1, externalReads := reads, externalWrites := [] }
  else if isMaintenanceRequest cfg req then
    if authFailed cfg req then
      { result := .respond 401 (.message "You not authorized to perform this action")
        state := st1, externalReads := reads, externalWrites := [] }
    else if req.method = "GET" then
      { result := .respond 200
          (.message ("Server in " ++ st1.currentServerMode.toStr ++ " mode now"))
        state := st1, externalReads := reads, externalWrites := [] }
    else if req.method = "POST" then
      let st2 : GateState Body :=
        { lastStateUpdateTimestamp := st1.lastStateUpdateTimestamp
          currentServerMode := ServerMode.maintenance
          maintenanceResponseOptions := req.body.or st1.maintenanceResponseOptions }
      { result := .respond 200
          (.messageWithOptions ("Server in " ++ st2.currentServerMode.toStr ++ " mode now")
            st2.maintenanceResponseOptions)
        state := st2, externalReads := reads
        externalWrites :=
          if cfg.hasSetExternal then [getLocalMaintenanceState st2] else [] }
    else if req.method = "DELETE" then
      let st2 : GateState Body :=
        { lastStateUpdateTimestamp := st1.lastStateUpdateTimestamp
          currentServerMode := ServerMode.default
          maintenanceResponseOptions := st1.maintenanceResponseOptions }
      { result := .respond 200
          (.messageWithOptions ("Server in " ++ st2.currentServerMode.toStr ++ " mode now")
            st2.maintenanceResponseOptions)
        state := st2, externalReads := reads
        externalWrites :=
          if cfg.hasSetExternal then [getLocalMaintenanceState st2] else [] }
    else
      { result := .respond 405 (.message (req.method ++ " is not allowed for this endpoint"))
        state := st1, externalReads := reads, externalWrites := [] }
  else
    { result := .passthrough
      state := st1, externalReads := reads, externalWrites := [] }

/-- The middleware: one request handled end to end, refresh step first,
then the dispatch. -/
def middleware (cfg : Config) (st : GateState Body) (now : Nat)
    (extRead : Option (MaintenanceState Body)) (req : Request Body) :
    HandleOutcome Body :=
  let r := updateLocalMaintenanceState cfg st now extRead
  dispatch cfg r.1 r.2 req

/-! Concrete fixtures used by witnesses and counterexamples (Body := Nat). -/

/-- A concrete blocked-response configuration: status 503, body 7. -/
def bodyA : MaintenanceResponseOptions Nat := ⟨503, 7⟩

/-- Defaults of the source, no external collaborators. -/
def cfgPlain : Config := ⟨"/maintenance", "/api", none, 60000, false, false⟩

/-- Defaults plus a configured external read function. -/
def cfgRead : Config := ⟨"/maintenance", "/api", none, 60000, true, false⟩

/-- Defaults plus an accessKey and a configured external read function. -/
def cfgKeyRead : Config := ⟨"/maintenance", "/api", some "sesame", 60000, true, false⟩

/-- Defaults plus a configured external write function. -/
def cfgWrite : Config := ⟨"/maintenance", "/api", none, 60000, false, true⟩

/-- Fresh gate state: constructed at time 0, default mode, no options. -/
def stDefault : GateState Nat := ⟨0, ServerMode.default, none⟩

/-- Gate state in maintenance mode with options set. -/
def stMaint : GateState Nat := ⟨0, ServerMode.maintenance, some bodyA⟩

/-- An external state an external read may return. -/
def extMaint : MaintenanceState Nat := ⟨ServerMode.maintenance, some bodyA⟩

/-- A GET to the management path with no access key supplied. -/
def reqGetMaint : Request Nat := ⟨"GET", "/maintenance", "/maintenance", none, none⟩

/-- A configuration whose protected prefix and management path coincide. -/
def cfgOverlap : Config := ⟨"/maintenance", "/maintenance", none, 60000, false, false⟩

/-- A GET to a path matching neither the protected prefix nor the management path. -/
def reqHome : Request Nat := ⟨"GET", "/home", "/home", none, none⟩

/-- A GET whose path avoids the protected prefix but whose query string holds it. -/
def reqQueryApi : Request Nat := ⟨"GET", "/home?next=/api", "/home", none, none⟩

/-- A POST to the management path carrying a body, no access key supplied. -/
def reqPostMaint : Request Nat := ⟨"POST", "/maintenance", "/maintenance", none, some bodyA⟩

/-- A DELETE to the management path, no access key supplied. -/
def reqDeleteMaint : Request Nat := ⟨"DELETE", "/maintenance", "/maintenance", none, none⟩

/-- A plain GET to a protected path. -/
def reqGetApi : Request Nat := ⟨"GET", "/api/anything", "/api/anything", none, none⟩

/-! Helper lemmas shared by the claim theorems. -/

theorem dispatch_externalReads (cfg : Config) (st1 : GateState Body) (reads : Nat)
    (req : Request Body) : (dispatch cfg st1 reads req).externalReads = reads := by
  unfold dispatch
  repeat first | rfl | split

theorem updateLocalMaintenanceState_reads (cfg : Config) (st : GateState Body) (now : Nat)
    (extRead : Option (MaintenanceState Body)) :
    (updateLocalMaintenanceState cfg st now extRead).2 =
      if (cfg.hasGetExternal && isItTimeToUpdateLocalMaintenanceState cfg st now) = true
      then 1 else 0 := by
  unfold updateLocalMaintenanceState
  split
  · cases extRead <;> rfl
  · rfl

theorem updateLocalMaintenanceState_skip (cfg : Config) (st : GateState Body) (now : Nat)
    (extRead : Option (MaintenanceState Body))
    (h : (cfg.hasGetExternal && isItTimeToUpdateLocalMaintenanceState cfg st now) = false) :
    updateLocalMaintenanceState cfg st now extRead = (st, 0) := by
  unfold updateLocalMaintenanceState
  rw [if_neg]
  simp [h]

theorem updateLocalMaintenanceState_fire_none (cfg : Config) (st : GateState Body) (now : Nat)
    (h : (cfg.hasGetExternal && isItTimeToUpdateLocalMaintenanceState cfg st now) = true) :
    updateLocalMaintenanceState cfg st now (none : Option (MaintenanceState Body)) = (st, 1) := by
  unfold updateLocalMaintenanceState
  rw [if_pos h]

theorem updateLocalMaintenanceState_fire_some (cfg : Config) (st : GateState Body) (now : Nat)
    (ext : MaintenanceState Body)
    (h : (cfg.hasGetExternal && isItTimeToUpdateLocalMaintenanceState cfg st now) = true) :
    updateLocalMaintenanceState cfg st now (some ext) =
      ({ lastStateUpdateTimestamp := now
         currentServerMode := ext.currentServerMode
         maintenanceResponseOptions := ext.maintenanceResponseOptions }, 1) := by
  unfold updateLocalMaintenanceState
  rw [if_pos h]

theorem blocking_condition_false (cfg : Config) (st1 : GateState Body) (req : Request Body)
    (h : ¬(st1.currentServerMode = ServerMode.maintenance ∧ isApiRequest cfg req = true)) :
    (isServerInMaintenanceMode st1 && isApiRequest cfg req) = false := by
  unfold isServerInMaintenanceMode
  by_cases hm : st1.currentServerMode = ServerMode.maintenance
  · have hap : isApiRequest cfg req = false := by
      cases hap : isApiRequest cfg req
      · rfl
      · exact absurd ⟨hm, hap⟩ h
    simp [hap]
  · simp [hm]

theorem dispatch_blocked (cfg : Config) (st1 : GateState Body) (reads : Nat) (req : Request Body)
    (hmode : st1.currentServerMode = ServerMode.maintenance)
    (hapi : isApiRequest cfg req = true) :
    dispatch cfg st1 reads req =
      { result := match st1.maintenanceResponseOptions with
          | some options => .respond options.statusCode (.raw options.body)
          | none => .crash
        state := st1, externalReads := reads, externalWrites := [] } := by
  have hc : (isServerInMaintenanceMode st1 && isApiRequest cfg req) = true := by
    simp [isServerInMaintenanceMode, hmode, hapi]
  unfold dispatch
  rw [hc]
  cases hopts : st1.maintenanceResponseOptions <;> simp [hopts]

theorem dispatch_auth_fail (cfg : Config) (st1 : GateState Body) (reads : Nat)
    (req : Request Body)
    (hb : (isServerInMaintenanceMode st1 && isApiRequest cfg req) = false)
    (hmgmt : isMaintenanceRequest cfg req = true)
    (hauth : authFailed cfg req = true) :
    dispatch cfg st1 reads req =
      { result := .respond 401 (.message "You not authorized to perform this action")
        state := st1, externalReads := reads, externalWrites := [] } := by
  unfold dispatch
  rw [hb, hmgmt, hauth]
  simp

theorem dispatch_get (cfg : Config) (st1 : GateState Body) (reads : Nat) (req : Request Body)
    (hb : (isServerInMaintenanceMode st1 && isApiRequest cfg req) = false)
    (hmgmt : isMaintenanceRequest cfg req = true)
    (hauth : authFailed cfg req = false)
    (hm : req.method = "GET") :
    dispatch cfg st1 reads req =
      { result := .respond 200
          (.message ("Server in " ++ st1.currentServerMode.toStr ++ " mode now"))
        state := st1, externalReads := reads, externalWrites := [] } := by
  unfold dispatch
  rw [hb, hmgmt, hauth, hm]
  simp

theorem dispatch_post (cfg : Config) (st1 : GateState Body) (reads : Nat) (req : Request Body)
    (hb : (isServerInMaintenanceMode st1 && isApiRequest cfg req) = false)
    (hmgmt : isMaintenanceRequest cfg req = true)
    (hauth : authFailed cfg req = false)
    (hm : req.method = "POST") :
    dispatch cfg st1 reads req =
      { result := .respond 200 (.messageWithOptions "Server in maintenance mode now"
          (req.body.or st1.maintenanceResponseOptions))
        state := { lastStateUpdateTimestamp := st1.lastStateUpdateTimestamp
                   currentServerMode := ServerMode.maintenance
                   maintenanceResponseOptions := req.body.or st1.maintenanceResponseOptions }
        externalReads := reads
        externalWrites :=
          if cfg.hasSetExternal
          then [⟨ServerMode.maintenance, req.body.or st1.maintenanceResponseOptions⟩]
          else [] } := by
  unfold dispatch
  rw [hb, hmgmt, hauth, hm]
  simp [getLocalMaintenanceState, ServerMode.toStr]

theorem dispatch_delete (cfg : Config) (st1 : GateState Body) (reads : Nat) (req : Request Body)
    (hb : (isServerInMaintenanceMode st1 && isApiRequest cfg req) = false)
    (hmgmt : isMaintenanceRequest cfg req = true)
    (hauth : authFailed cfg req = false)
    (hm : req.method = "DELETE") :
    dispatch cfg st1 reads req =
      { result := .respond 200 (.messageWithOptions "Server in default mode now"
          st1.maintenanceResponseOptions)
        state := { lastStateUpdateTimestamp := st1.lastStateUpdateTimestamp
                   currentServerMode := ServerMode.default
                   maintenanceResponseOptions := st1.maintenanceResponseOptions }
        externalReads := reads
        externalWrites :=
          if cfg.hasSetExternal
          then [⟨ServerMode.default, st1.maintenanceResponseOptions⟩]
          else [] } := by
  unfold dispatch
  rw [hb, hmgmt, hauth, hm]
  simp [getLocalMaintenanceState, ServerMode.toStr]

theorem dispatch_passthrough (cfg : Config) (st1 : GateState Body) (reads : Nat)
    (req : Request Body)
    (hb : (isServerInMaintenanceMode st1 && isApiRequest cfg req) = false)
    (hmgmt : isMaintenanceRequest cfg req = false) :
    dispatch cfg st1 reads req =
      { result := .passthrough
        state := st1, externalReads := reads, externalWrites := [] } := by
  unfold dispatch
  rw [hb, hmgmt]
  simp

theorem dispatch_timestamp (cfg : Config) (st1 : GateState Body) (reads : Nat)
    (req : Request Body) :
    (dispatch cfg st1 reads req).state.lastStateUpdateTimestamp =
      st1.lastStateUpdateTimestamp := by
  unfold dispatch
  repeat first | rfl | split

theorem dispatch_state_eq_of_not_mgmt (cfg : Config) (st1 : GateState Body) (reads : Nat)
    (req : Request Body) (hmgmt : isMaintenanceRequest cfg req = false) :
    (dispatch cfg st1 reads req).state = st1 := by
  unfold dispatch
  rw [hmgmt]
  simp only [Bool.false_eq_true, if_false]
  split
  · split <;> rfl
  · rfl

theorem middleware_externalReads (cfg : Config) (st : GateState Body) (now : Nat)
    (extRead : Option (MaintenanceState Body)) (req : Request Body) :
    (middleware cfg st now extRead req).externalReads =
      if (cfg.hasGetExternal && isItTimeToUpdateLocalMaintenanceState cfg st now) = true
      then 1 else 0 := by
  unfold middleware
  rw [dispatch_externalReads, updateLocalMaintenanceState_reads]

theorem middleware_blocked_of_no_refresh (cfg : Config) (stp : GateState Body) (now2 : Nat)
    (extRead2 : Option (MaintenanceState Body)) (req2 : Request Body)
    (options : MaintenanceResponseOptions Body)
    (hnr : (cfg.hasGetExternal && isItTimeToUpdateLocalMaintenanceState cfg stp now2) = false)
    (hmode : stp.currentServerMode = ServerMode.maintenance)
    (hopts : stp.maintenanceResponseOptions = some options)
    (hapi2 : isApiRequest cfg req2 = true) :
    (middleware cfg stp now2 extRead2 req2).result =
      HandleResult.respond options.statusCode (Payload.raw options.body) := by
  unfold middleware
  rw [updateLocalMaintenanceState_skip cfg stp now2 extRead2 hnr]
  rw [dispatch_blocked cfg _ _ req2 hmode hapi2]
  show (match stp.maintenanceResponseOptions with
    | some options => HandleResult.respond options.statusCode (Payload.raw options.body)
    | none => HandleResult.crash) = _
  rw [hopts]

theorem middleware_passthrough_of_default (cfg : Config) (stp : GateState Body) (now2 : Nat)
    (extRead2 : Option (MaintenanceState Body)) (req2 : Request Body)
    (hnr : (cfg.hasGetExternal && isItTimeToUpdateLocalMaintenanceState cfg stp now2) = false)
    (hmode : stp.currentServerMode = ServerMode.default)
    (hmgmt2 : isMaintenanceRequest cfg req2 = false) :
    (middleware cfg stp now2 extRead2 req2).result = HandleResult.passthrough := by
  unfold middleware
  rw [updateLocalMaintenanceState_skip cfg stp now2 extRead2 hnr]
  have hb : (isServerInMaintenanceMode stp && isApiRequest cfg req2) = false := by
    simp [isServerInMaintenanceMode, hmode]
  rw [dispatch_passthrough cfg _ _ req2 hb hmgmt2]

theorem middleware_get_steady (cfg : Config) (stp : GateState Body) (now2 : Nat)
    (extRead2 : Option (MaintenanceState Body)) (req2 : Request Body)
    (hnr : (cfg.hasGetExternal && isItTimeToUpdateLocalMaintenanceState cfg stp now2) = false)
    (hnoblock2 : isApiRequest cfg req2 = false)
    (hmgmt2 : isMaintenanceRequest cfg req2 = true)
    (hauth2 : authFailed cfg req2 = false)
    (hm2 : req2.method = "GET") :
    middleware cfg stp now2 extRead2 req2 =
      { result := HandleResult.respond 200
          (Payload.message ("Server in " ++ stp.currentServerMode.toStr ++ " mode now"))
        state := stp, externalReads := 0, externalWrites := [] } := by
  unfold middleware
  rw [updateLocalMaintenanceState_skip cfg stp now2 extRead2 hnr]
  exact dispatch_get cfg _ _ req2 (by simp [hnoblock2]) hmgmt2 hauth2 hm2

/-! Claim C1. -/

/-- Counterexample to C1: with the external read configured, TTL 60000 and
lastStateUpdateTimestamp 0, a request handled at time 60000 (elapsed time
exactly equal to the TTL) invokes the external read zero times, refuting the
claim that it is invoked exactly once when the elapsed time equals the TTL. -/
theorem refresh_at_exact_ttl_not_invoked :
    60000 - stDefault.lastStateUpdateTimestamp = cfgRead.localMaintenanceStateTTL ∧
    (middleware cfgRead stDefault 60000 (some extMaint) reqGetMaint).externalReads = 0 := by
  decide

/-- Claim C1 (amended): with the external read configured, one middleware invocation
invokes it exactly once if the elapsed time is strictly past the TTL
(lastStateUpdateTimestamp + TTL < now) and zero times otherwise, so it is
skipped whenever the elapsed time is less than or exactly equal to the TTL. -/
theorem refresh_read_invoked_iff_strictly_past_ttl (cfg : Config) (st : GateState Body)
    (now : Nat) (extRead : Option (MaintenanceState Body)) (req : Request Body)
    (hget : cfg.hasGetExternal = true) :
    (middleware cfg st now extRead req).externalReads =
      if st.lastStateUpdateTimestamp + cfg.localMaintenanceStateTTL < now then 1 else 0 := by
  unfold middleware
  rw [dispatch_externalReads, updateLocalMaintenanceState_reads]
  unfold isItTimeToUpdateLocalMaintenanceState
  rw [hget]
  by_cases h : st.lastStateUpdateTimestamp + cfg.localMaintenanceStateTTL < now
  · rw [if_pos h, if_pos]
    simp [h]
  · rw [if_neg h, if_neg]
    simp [h]

/-- Witness for C1: at time 70000 (elapsed 70000, strictly past the TTL 60000)
the external read is invoked exactly once. -/
theorem refresh_read_invoked_iff_strictly_past_ttl_witness :
    cfgRead.hasGetExternal = true ∧
    (middleware cfgRead stDefault 70000 (some extMaint) reqGetMaint).externalReads =
      (if stDefault.lastStateUpdateTimestamp + cfgRead.localMaintenanceStateTTL < 70000
       then 1 else 0) :=
  ⟨rfl, refresh_read_invoked_iff_strictly_past_ttl cfgRead stDefault 70000 (some extMaint)
    reqGetMaint rfl⟩

/-! Claim C2. -/

/-- Claim C2: while the refreshed local mode is maintenance, a request matching both
the protected-prefix test and the management-path test is served by the
blocking branch (the blocked response, or the crash on never-set options), the
state stays as the refresh step left it, and no external write happens: it is
never processed as a management command. -/
theorem blocked_before_management (cfg : Config) (st : GateState Body) (now : Nat)
    (extRead : Option (MaintenanceState Body)) (req : Request Body)
    (hmode : (updateLocalMaintenanceState cfg st now extRead).1.currentServerMode =
      ServerMode.maintenance)
    (hapi : isApiRequest cfg req = true)
    (hmgmt : isMaintenanceRequest cfg req = true) :
    (middleware cfg st now extRead req).result =
      (match (updateLocalMaintenanceState cfg st now extRead).1.maintenanceResponseOptions with
        | some options => HandleResult.respond options.statusCode (Payload.raw options.body)
        | none => HandleResult.crash) ∧
    (middleware cfg st now extRead req).state =
      (updateLocalMaintenanceState cfg st now extRead).1 ∧
    (middleware cfg st now extRead req).externalWrites = [] := by
  unfold middleware
  rw [dispatch_blocked cfg _ _ req hmode hapi]
  exact ⟨rfl, rfl, rfl⟩

/-- Witness for C2: with protected prefix and management path both equal to
/maintenance, a GET to /maintenance during maintenance mode is blocked with the
configured 503 response instead of being answered as a management GET. -/
theorem blocked_before_management_witness :
    ((middleware cfgOverlap stMaint 0 none reqGetMaint).result =
      (match (updateLocalMaintenanceState cfgOverlap stMaint 0 none).1.maintenanceResponseOptions with
        | some options => HandleResult.respond options.statusCode (Payload.raw options.body)
        | none => HandleResult.crash) ∧
    (middleware cfgOverlap stMaint 0 none reqGetMaint).state =
      (updateLocalMaintenanceState cfgOverlap stMaint 0 none).1 ∧
    (middleware cfgOverlap stMaint 0 none reqGetMaint).externalWrites = []) ∧
    (middleware cfgOverlap stMaint 0 none reqGetMaint).result =
      HandleResult.respond 503 (Payload.raw 7) :=
  ⟨blocked_before_management cfgOverlap stMaint 0 none reqGetMaint (by decide) (by decide)
    (by decide), by decide⟩

/-! Claim C3. -/

/-- Claim C3: while the refreshed local mode is maintenance and responseOptions are
set, a request whose path contains the protected prefix is answered with
exactly the stored statusCode and body and never passes through. The request
url is the path followed by the query string. -/
theorem maintenance_blocks_protected_path (cfg : Config) (st : GateState Body) (now : Nat)
    (extRead : Option (MaintenanceState Body)) (req : Request Body)
    (options : MaintenanceResponseOptions Body) (q : List Char)
    (hurl : req.url.data = req.path.data ++ q)
    (hpath : cfg.apiBasePath.data <:+: req.path.data)
    (hmode : (updateLocalMaintenanceState cfg st now extRead).1.currentServerMode =
      ServerMode.maintenance)
    (hopts : (updateLocalMaintenanceState cfg st now extRead).1.maintenanceResponseOptions =
      some options) :
    (middleware cfg st now extRead req).result =
      HandleResult.respond options.statusCode (Payload.raw options.body) ∧
    (middleware cfg st now extRead req).result ≠ HandleResult.passthrough := by
  have hapi : isApiRequest cfg req = true := by
    apply decide_eq_true
    rw [hurl]
    exact hpath.trans (List.prefix_append _ _).isInfix
  unfold middleware
  rw [dispatch_blocked cfg _ _ req hmode hapi]
  constructor
  · show (match (updateLocalMaintenanceState cfg st now extRead).1.maintenanceResponseOptions with
      | some options => HandleResult.respond options.statusCode (Payload.raw options.body)
      | none => HandleResult.crash) = _
    rw [hopts]
  · show (match (updateLocalMaintenanceState cfg st now extRead).1.maintenanceResponseOptions with
      | some options => HandleResult.respond options.statusCode (Payload.raw options.body)
      | none => HandleResult.crash) ≠ _
    rw [hopts]
    simp

/-- Witness for C3: during maintenance with options 503/7, a GET to
/api/anything is answered 503 with body 7 and does not pass through. -/
theorem maintenance_blocks_protected_path_witness :
    (middleware cfgPlain stMaint 0 none reqGetApi).result =
      HandleResult.respond bodyA.statusCode (Payload.raw bodyA.body) ∧
    (middleware cfgPlain stMaint 0 none reqGetApi).result ≠ HandleResult.passthrough :=
  maintenance_blocks_protected_path cfgPlain stMaint 0 none reqGetApi bodyA []
    (by decide) (by decide) (by decide) (by decide)

/-! Claim C10. -/

/-- Claim C10: the blocking check is a substring test on the full request url
including the query string, so while the refreshed mode is maintenance a
request whose path does not contain the protected prefix is still blocked when
its query string makes the full url contain the prefix. -/
theorem query_string_containment_blocks (cfg : Config) (st : GateState Body) (now : Nat)
    (extRead : Option (MaintenanceState Body)) (req : Request Body)
    (options : MaintenanceResponseOptions Body)
    (hurl : cfg.apiBasePath.data <:+: req.url.data)
    (hpath : ¬ cfg.apiBasePath.data <:+: req.path.data)
    (hmode : (updateLocalMaintenanceState cfg st now extRead).1.currentServerMode =
      ServerMode.maintenance)
    (hopts : (updateLocalMaintenanceState cfg st now extRead).1.maintenanceResponseOptions =
      some options) :
    (middleware cfg st now extRead req).result =
      HandleResult.respond options.statusCode (Payload.raw options.body) := by
  have hapi : isApiRequest cfg req = true := decide_eq_true hurl
  unfold middleware
  rw [dispatch_blocked cfg _ _ req hmode hapi]
  show (match (updateLocalMaintenanceState cfg st now extRead).1.maintenanceResponseOptions with
    | some options => HandleResult.respond options.statusCode (Payload.raw options.body)
    | none => HandleResult.crash) = _
  rw [hopts]

/-- Witness for C10: during maintenance, a GET to /home?next=/api (path /home,
query string containing /api) is blocked with the configured 503 response. -/
theorem query_string_containment_blocks_witness :
    (middleware cfgPlain stMaint 0 none reqQueryApi).result =
      HandleResult.respond bodyA.statusCode (Payload.raw bodyA.body) :=
  query_string_containment_blocks cfgPlain stMaint 0 none reqQueryApi bodyA
    (by decide) (by decide) (by decide) (by decide)

/-! Claim C7. -/

/-- Counterexample to C7: with mode maintenance, the request GET /home?next=/api
has a path (/home) matching neither the protected prefix /api nor the
management path /maintenance, yet the middleware does not pass through: the
blocking check inspects the full url including the query string. -/
theorem path_passthrough_claim_refuted :
    ¬ (cfgPlain.apiBasePath.data <:+: reqQueryApi.path.data) ∧
    isMaintenanceRequest cfgPlain reqQueryApi = false ∧
    (middleware cfgPlain stMaint 0 none reqQueryApi).result ≠ HandleResult.passthrough := by
  decide

/-- Claim C7 (amended): for every request whose full url (path plus query string)
does not contain the protected prefix and whose path does not end with the
management path, the middleware passes through and performs no external write,
regardless of whether the mode is default or maintenance. -/
theorem non_matching_request_passes_through (cfg : Config) (st : GateState Body) (now : Nat)
    (extRead : Option (MaintenanceState Body)) (req : Request Body)
    (hapi : isApiRequest cfg req = false)
    (hmgmt : isMaintenanceRequest cfg req = false) :
    (middleware cfg st now extRead req).result = HandleResult.passthrough ∧
    (middleware cfg st now extRead req).externalWrites = [] := by
  unfold middleware
  rw [dispatch_passthrough cfg _ _ req (by simp [hapi]) hmgmt]
  exact ⟨rfl, rfl⟩

/-- Witness for C7 (amended): GET /home passes through even in maintenance mode. -/
theorem non_matching_request_passes_through_witness :
    (middleware cfgPlain stMaint 0 none reqHome).result = HandleResult.passthrough ∧
    (middleware cfgPlain stMaint 0 none reqHome).externalWrites = [] :=
  non_matching_request_passes_through cfgPlain stMaint 0 none reqHome (by decide) (by decide)

/-! Claim C4. -/

/-- Claim C4: an authorized POST to the management endpoint sets local mode to
maintenance; a supplied body replaces responseOptions and an absent body
retains the previous ones; when the external write is configured it is invoked
with exactly the new combined state; the response is 200 with the status
message plus the effective responseOptions; and afterwards any request whose
url contains the protected prefix (handled while the refresh step does not
overwrite the state) is blocked with exactly the stored statusCode and body. -/
theorem post_activates_and_blocks (cfg : Config) (st : GateState Body) (now : Nat)
    (extRead : Option (MaintenanceState Body)) (req : Request Body)
    (hmgmt : isMaintenanceRequest cfg req = true)
    (hauth : authFailed cfg req = false)
    (hmethod : req.method = "POST")
    (hnoblock : ¬((updateLocalMaintenanceState cfg st now extRead).1.currentServerMode =
      ServerMode.maintenance ∧ isApiRequest cfg req = true)) :
    (middleware cfg st now extRead req).state.currentServerMode = ServerMode.maintenance ∧
    (middleware cfg st now extRead req).state.maintenanceResponseOptions =
      req.body.or (updateLocalMaintenanceState cfg st now extRead).1.maintenanceResponseOptions ∧
    (middleware cfg st now extRead req).externalWrites =
      (if cfg.hasSetExternal
       then [getLocalMaintenanceState (middleware cfg st now extRead req).state] else []) ∧
    (middleware cfg st now extRead req).result =
      HandleResult.respond 200 (Payload.messageWithOptions "Server in maintenance mode now"
        (middleware cfg st now extRead req).state.maintenanceResponseOptions) ∧
    (∀ (now2 : Nat) (extRead2 : Option (MaintenanceState Body)) (req2 : Request Body)
      (options : MaintenanceResponseOptions Body),
      (middleware cfg st now extRead req).state.maintenanceResponseOptions = some options →
      (cfg.hasGetExternal && isItTimeToUpdateLocalMaintenanceState cfg
        (middleware cfg st now extRead req).state now2) = false →
      isApiRequest cfg req2 = true →
      (middleware cfg (middleware cfg st now extRead req).state now2 extRead2 req2).result =
        HandleResult.respond options.statusCode (Payload.raw options.body)) := by
  have hb := blocking_condition_false cfg _ req hnoblock
  have hmid : middleware cfg st now extRead req =
      { result := HandleResult.respond 200 (Payload.messageWithOptions
          "Server in maintenance mode now"
          (req.body.or (updateLocalMaintenanceState cfg st now
            extRead).1.maintenanceResponseOptions))
        state := { lastStateUpdateTimestamp :=
                     (updateLocalMaintenanceState cfg st now extRead).1.lastStateUpdateTimestamp
                   currentServerMode := ServerMode.maintenance
                   maintenanceResponseOptions :=
                     req.body.or
                       (updateLocalMaintenanceState cfg st now extRead).1.maintenanceResponseOptions }
        externalReads := (updateLocalMaintenanceState cfg st now extRead).2
        externalWrites :=
          if cfg.hasSetExternal
          then [⟨ServerMode.maintenance,
                 req.body.or
                   (updateLocalMaintenanceState cfg st now extRead).1.maintenanceResponseOptions⟩]
          else [] } :=
    dispatch_post cfg _ _ req hb hmgmt hauth hmethod
  have hmode1 : (middleware cfg st now extRead req).state.currentServerMode =
      ServerMode.maintenance := by rw [hmid]
  refine ⟨hmode1, by rw [hmid], ?_, by rw [hmid], ?_⟩
  · rw [hmid]
    rfl
  · intro now2 extRead2 req2 options hopts hnr hapi2
    exact middleware_blocked_of_no_refresh cfg _ now2 extRead2 req2 options hnr hmode1
      hopts hapi2

/-- Witness for C4: with the external write configured, an authorized POST of
body 503/7 activates maintenance, writes the combined state externally,
responds 200 with it, and a later GET /api/anything is blocked with 503/7. -/
theorem post_activates_and_blocks_witness :
    ((middleware cfgWrite stDefault 0 none reqPostMaint).state.currentServerMode =
      ServerMode.maintenance ∧
    (middleware cfgWrite stDefault 0 none reqPostMaint).state.maintenanceResponseOptions =
      reqPostMaint.body.or (updateLocalMaintenanceState cfgWrite stDefault 0
        none).1.maintenanceResponseOptions ∧
    (middleware cfgWrite stDefault 0 none reqPostMaint).externalWrites =
      (if cfgWrite.hasSetExternal
       then [getLocalMaintenanceState (middleware cfgWrite stDefault 0 none reqPostMaint).state]
       else []) ∧
    (middleware cfgWrite stDefault 0 none reqPostMaint).result =
      HandleResult.respond 200 (Payload.messageWithOptions "Server in maintenance mode now"
        (middleware cfgWrite stDefault 0 none reqPostMaint).state.maintenanceResponseOptions) ∧
    (∀ (now2 : Nat) (extRead2 : Option (MaintenanceState Nat)) (req2 : Request Nat)
      (options : MaintenanceResponseOptions Nat),
      (middleware cfgWrite stDefault 0 none reqPostMaint).state.maintenanceResponseOptions =
        some options →
      (cfgWrite.hasGetExternal && isItTimeToUpdateLocalMaintenanceState cfgWrite
        (middleware cfgWrite stDefault 0 none reqPostMaint).state now2) = false →
      isApiRequest cfgWrite req2 = true →
      (middleware cfgWrite (middleware cfgWrite stDefault 0 none reqPostMaint).state now2
        extRead2 req2).result =
        HandleResult.respond options.statusCode (Payload.raw options.body))) ∧
    (middleware cfgWrite (middleware cfgWrite stDefault 0 none reqPostMaint).state 1 none
      reqGetApi).result = HandleResult.respond 503 (Payload.raw 7) :=
  ⟨post_activates_and_blocks cfgWrite stDefault 0 none reqPostMaint (by decide) (by decide)
    (by decide) (by decide), by decide⟩

/-! Claim C5. -/

/-- Counterexample to C5: accessKey sesame and the external read are configured;
a management GET without the key at time 70000 (past the TTL) is answered 401,
yet the refresh step that runs before the authorization check has already
changed both the mode and lastStateUpdateTimestamp, refuting the claimed zero
state change. -/
theorem unauthorized_request_changes_state :
    (middleware cfgKeyRead stDefault 70000 (some extMaint) reqGetMaint).result =
      HandleResult.respond 401 (Payload.message "You not authorized to perform this action") ∧
    (middleware cfgKeyRead stDefault 70000 (some extMaint) reqGetMaint).state.currentServerMode ≠
      stDefault.currentServerMode ∧
    (middleware cfgKeyRead stDefault 70000
      (some extMaint) reqGetMaint).state.lastStateUpdateTimestamp ≠
      stDefault.lastStateUpdateTimestamp := by
  decide

/-- Claim C5 (amended): when accessKey is configured (a truthy key) and a management
request carries an absent or mismatched accessKey query parameter, the response
is 401 with the fixed message, the external write is never invoked, and the
state is exactly what the refresh step (which precedes the authorization check
on every request) produced; in particular, whenever that refresh step does not
fire, mode, responseOptions and lastStateUpdateTimestamp are all unchanged. -/
theorem unauthorized_management_request_401_no_action (cfg : Config) (st : GateState Body)
    (now : Nat) (extRead : Option (MaintenanceState Body)) (req : Request Body)
    (hkey : jsTruthy cfg.accessKey = true)
    (hmiss : req.queryAccessKey ≠ cfg.accessKey)
    (hmgmt : isMaintenanceRequest cfg req = true)
    (hnoblock : ¬((updateLocalMaintenanceState cfg st now extRead).1.currentServerMode =
      ServerMode.maintenance ∧ isApiRequest cfg req = true)) :
    (middleware cfg st now extRead req).result =
      HandleResult.respond 401 (Payload.message "You not authorized to perform this action") ∧
    (middleware cfg st now extRead req).state =
      (updateLocalMaintenanceState cfg st now extRead).1 ∧
    (middleware cfg st now extRead req).externalWrites = [] ∧
    ((cfg.hasGetExternal && isItTimeToUpdateLocalMaintenanceState cfg st now) = false →
      (middleware cfg st now extRead req).state = st) := by
  have hauth : authFailed cfg req = true := by
    unfold authFailed
    rw [hkey]
    simp [hmiss]
  have hb := blocking_condition_false cfg _ req hnoblock
  unfold middleware
  rw [dispatch_auth_fail cfg _ _ req hb hmgmt hauth]
  refine ⟨rfl, rfl, rfl, ?_⟩
  intro hnr
  show (updateLocalMaintenanceState cfg st now extRead).1 = st
  rw [updateLocalMaintenanceState_skip cfg st now extRead hnr]

/-- Witness for C5 (amended): with accessKey sesame and no refresh firing, a
keyless management GET gets 401 and the state is fully unchanged. -/
theorem unauthorized_management_request_401_no_action_witness :
    (middleware cfgKeyRead stDefault 0 none reqGetMaint).result =
      HandleResult.respond 401 (Payload.message "You not authorized to perform this action") ∧
    (middleware cfgKeyRead stDefault 0 none reqGetMaint).state =
      (updateLocalMaintenanceState cfgKeyRead stDefault 0 none).1 ∧
    (middleware cfgKeyRead stDefault 0 none reqGetMaint).externalWrites = [] ∧
    ((cfgKeyRead.hasGetExternal &&
      isItTimeToUpdateLocalMaintenanceState cfgKeyRead stDefault 0) = false →
      (middleware cfgKeyRead stDefault 0 none reqGetMaint).state = stDefault) :=
  unauthorized_management_request_401_no_action cfgKeyRead stDefault 0 none reqGetMaint
    (by decide) (by decide) (by decide) (by decide)

/-! Claim C6. -/

/-- Claim C6: an authorized DELETE to the management endpoint sets local mode to
default while responseOptions stay unchanged; when the external write is
configured it is invoked with exactly the new state; the response is 200 with
the status message plus responseOptions; and afterwards requests pass through
(handled while the refresh step does not overwrite the state, and not aimed at
the management path), even though responseOptions may remain set. -/
theorem delete_deactivates_then_passes_through (cfg : Config) (st : GateState Body) (now : Nat)
    (extRead : Option (MaintenanceState Body)) (req : Request Body)
    (hmgmt : isMaintenanceRequest cfg req = true)
    (hauth : authFailed cfg req = false)
    (hmethod : req.method = "DELETE")
    (hnoblock : ¬((updateLocalMaintenanceState cfg st now extRead).1.currentServerMode =
      ServerMode.maintenance ∧ isApiRequest cfg req = true)) :
    (middleware cfg st now extRead req).state.currentServerMode = ServerMode.default ∧
    (middleware cfg st now extRead req).state.maintenanceResponseOptions =
      (updateLocalMaintenanceState cfg st now extRead).1.maintenanceResponseOptions ∧
    (middleware cfg st now extRead req).externalWrites =
      (if cfg.hasSetExternal
       then [getLocalMaintenanceState (middleware cfg st now extRead req).state] else []) ∧
    (middleware cfg st now extRead req).result =
      HandleResult.respond 200 (Payload.messageWithOptions "Server in default mode now"
        (updateLocalMaintenanceState cfg st now extRead).1.maintenanceResponseOptions) ∧
    (∀ (now2 : Nat) (extRead2 : Option (MaintenanceState Body)) (req2 : Request Body),
      (cfg.hasGetExternal && isItTimeToUpdateLocalMaintenanceState cfg
        (middleware cfg st now extRead req).state now2) = false →
      isApiRequest cfg req2 = true →
      isMaintenanceRequest cfg req2 = false →
      (middleware cfg (middleware cfg st now extRead req).state now2 extRead2 req2).result =
        HandleResult.passthrough) := by
  have hb := blocking_condition_false cfg _ req hnoblock
  have hmid : middleware cfg st now extRead req =
      { result := HandleResult.respond 200 (Payload.messageWithOptions
          "Server in default mode now"
          (updateLocalMaintenanceState cfg st now extRead).1.maintenanceResponseOptions)
        state := { lastStateUpdateTimestamp :=
                     (updateLocalMaintenanceState cfg st now extRead).1.lastStateUpdateTimestamp
                   currentServerMode := ServerMode.default
                   maintenanceResponseOptions :=
                     (updateLocalMaintenanceState cfg st now extRead).1.maintenanceResponseOptions }
        externalReads := (updateLocalMaintenanceState cfg st now extRead).2
        externalWrites :=
          if cfg.hasSetExternal
          then [⟨ServerMode.default,
                 (updateLocalMaintenanceState cfg st now extRead).1.maintenanceResponseOptions⟩]
          else [] } :=
    dispatch_delete cfg _ _ req hb hmgmt hauth hmethod
  have hmode1 : (middleware cfg st now extRead req).state.currentServerMode =
      ServerMode.default := by rw [hmid]
  refine ⟨hmode1, by rw [hmid], ?_, by rw [hmid], ?_⟩
  · rw [hmid]
    rfl
  · intro now2 extRead2 req2 hnr hapi2 hmgmt2
    exact middleware_passthrough_of_default cfg _ now2 extRead2 req2 hnr hmode1 hmgmt2

/-- Witness for C6: with the external write configured, an authorized DELETE
from maintenance mode deactivates it, keeps options 503/7, writes the new
state, and a later GET /api/anything passes through. -/
theorem delete_deactivates_then_passes_through_witness :
    ((middleware cfgWrite stMaint 0 none reqDeleteMaint).state.currentServerMode =
      ServerMode.default ∧
    (middleware cfgWrite stMaint 0 none reqDeleteMaint).state.maintenanceResponseOptions =
      (updateLocalMaintenanceState cfgWrite stMaint 0 none).1.maintenanceResponseOptions ∧
    (middleware cfgWrite stMaint 0 none reqDeleteMaint).externalWrites =
      (if cfgWrite.hasSetExternal
       then [getLocalMaintenanceState (middleware cfgWrite stMaint 0 none reqDeleteMaint).state]
       else []) ∧
    (middleware cfgWrite stMaint 0 none reqDeleteMaint).result =
      HandleResult.respond 200 (Payload.messageWithOptions "Server in default mode now"
        (updateLocalMaintenanceState cfgWrite stMaint 0 none).1.maintenanceResponseOptions) ∧
    (∀ (now2 : Nat) (extRead2 : Option (MaintenanceState Nat)) (req2 : Request Nat),
      (cfgWrite.hasGetExternal && isItTimeToUpdateLocalMaintenanceState cfgWrite
        (middleware cfgWrite stMaint 0 none reqDeleteMaint).state now2) = false →
      isApiRequest cfgWrite req2 = true →
      isMaintenanceRequest cfgWrite req2 = false →
      (middleware cfgWrite (middleware cfgWrite stMaint 0 none reqDeleteMaint).state now2
        extRead2 req2).result = HandleResult.passthrough)) ∧
    (middleware cfgWrite (middleware cfgWrite stMaint 0 none reqDeleteMaint).state 1 none
      reqGetApi).result = HandleResult.passthrough :=
  ⟨delete_deactivates_then_passes_through cfgWrite stMaint 0 none reqDeleteMaint (by decide)
    (by decide) (by decide) (by decide), by decide⟩

/-! Claim C8. -/

/-- Claim C8: after an authorized POST activation with a body, the state holds
exactly the mode maintenance and those responseOptions; a later authorized GET
to the management endpoint (handled while the refresh step does not overwrite
the state) is answered 200 with the message naming exactly that mode, and
leaves the state — mode and responseOptions last set — entirely untouched. -/
theorem get_after_post_round_trip (cfg : Config) (st : GateState Body) (now : Nat)
    (extRead : Option (MaintenanceState Body)) (reqPost : Request Body)
    (options : MaintenanceResponseOptions Body)
    (hmgmt : isMaintenanceRequest cfg reqPost = true)
    (hauth : authFailed cfg reqPost = false)
    (hmethod : reqPost.method = "POST")
    (hbody : reqPost.body = some options)
    (hnoblock : ¬((updateLocalMaintenanceState cfg st now extRead).1.currentServerMode =
      ServerMode.maintenance ∧ isApiRequest cfg reqPost = true)) :
    (middleware cfg st now extRead reqPost).state.currentServerMode = ServerMode.maintenance ∧
    (middleware cfg st now extRead reqPost).state.maintenanceResponseOptions = some options ∧
    (∀ (now2 : Nat) (extRead2 : Option (MaintenanceState Body)) (reqGet : Request Body),
      (cfg.hasGetExternal && isItTimeToUpdateLocalMaintenanceState cfg
        (middleware cfg st now extRead reqPost).state now2) = false →
      isApiRequest cfg reqGet = false →
      isMaintenanceRequest cfg reqGet = true →
      authFailed cfg reqGet = false →
      reqGet.method = "GET" →
      (middleware cfg (middleware cfg st now extRead reqPost).state now2 extRead2 reqGet).result =
        HandleResult.respond 200 (Payload.message "Server in maintenance mode now") ∧
      (middleware cfg (middleware cfg st now extRead reqPost).state now2 extRead2 reqGet).state =
        (middleware cfg st now extRead reqPost).state) := by
  have hb := blocking_condition_false cfg _ reqPost hnoblock
  have hmid : middleware cfg st now extRead reqPost =
      { result := HandleResult.respond 200 (Payload.messageWithOptions
          "Server in maintenance mode now"
          (reqPost.body.or
            (updateLocalMaintenanceState cfg st now extRead).1.maintenanceResponseOptions))
        state := { lastStateUpdateTimestamp :=
                     (updateLocalMaintenanceState cfg st now extRead).1.lastStateUpdateTimestamp
                   currentServerMode := ServerMode.maintenance
                   maintenanceResponseOptions :=
                     reqPost.body.or
                       (updateLocalMaintenanceState cfg st now extRead).1.maintenanceResponseOptions }
        externalReads := (updateLocalMaintenanceState cfg st now extRead).2
        externalWrites :=
          if cfg.hasSetExternal
          then [⟨ServerMode.maintenance,
                 reqPost.body.or
                   (updateLocalMaintenanceState cfg st now extRead).1.maintenanceResponseOptions⟩]
          else [] } :=
    dispatch_post cfg _ _ reqPost hb hmgmt hauth hmethod
  have hmode1 : (middleware cfg st now extRead reqPost).state.currentServerMode =
      ServerMode.maintenance := by rw [hmid]
  have hopts1 : (middleware cfg st now extRead reqPost).state.maintenanceResponseOptions =
      some options := by
    rw [hmid]
    show reqPost.body.or _ = some options
    rw [hbody]
    rfl
  refine ⟨hmode1, hopts1, ?_⟩
  intro now2 extRead2 reqGet hnr hnb2 hmg2 hau2 hget2
  have hg := middleware_get_steady cfg _ now2 extRead2 reqGet hnr hnb2 hmg2 hau2 hget2
  rw [hg]
  refine ⟨?_, rfl⟩
  show HandleResult.respond 200 (Payload.message ("Server in " ++
    (middleware cfg st now extRead reqPost).state.currentServerMode.toStr ++ " mode now")) = _
  rw [hmode1]
  rfl

/-- Witness for C8: POST of 503/7 then GET reports maintenance mode and the
state after the GET still holds exactly mode maintenance and options 503/7. -/
theorem get_after_post_round_trip_witness :
    (middleware cfgPlain stDefault 0 none reqPostMaint).state.currentServerMode =
      ServerMode.maintenance ∧
    (middleware cfgPlain stDefault 0 none reqPostMaint).state.maintenanceResponseOptions =
      some bodyA ∧
    (∀ (now2 : Nat) (extRead2 : Option (MaintenanceState Nat)) (reqGet : Request Nat),
      (cfgPlain.hasGetExternal && isItTimeToUpdateLocalMaintenanceState cfgPlain
        (middleware cfgPlain stDefault 0 none reqPostMaint).state now2) = false →
      isApiRequest cfgPlain reqGet = false →
      isMaintenanceRequest cfgPlain reqGet = true →
      authFailed cfgPlain reqGet = false →
      reqGet.method = "GET" →
      (middleware cfgPlain (middleware cfgPlain stDefault 0 none reqPostMaint).state now2
        extRead2 reqGet).result =
        HandleResult.respond 200 (Payload.message "Server in maintenance mode now") ∧
      (middleware cfgPlain (middleware cfgPlain stDefault 0 none reqPostMaint).state now2
        extRead2 reqGet).state =
        (middleware cfgPlain stDefault 0 none reqPostMaint).state) :=
  get_after_post_round_trip cfgPlain stDefault 0 none reqPostMaint bodyA (by decide)
    (by decide) (by decide) (by decide) (by decide)

/-! Claim C9. -/

/-- Claim C9: when the refresh fires (external read configured and TTL strictly
elapsed) and the external read returns empty, the read happened exactly once,
lastStateUpdateTimestamp is unchanged, mode and responseOptions are unchanged
whenever the request is not a management request, and on every later request
(time not decreasing) the external read is attempted again at once rather than
after another full TTL interval. -/
theorem empty_refresh_keeps_timestamp_and_retries (cfg : Config) (st : GateState Body)
    (now : Nat) (req : Request Body)
    (hget : cfg.hasGetExternal = true)
    (ht : isItTimeToUpdateLocalMaintenanceState cfg st now = true) :
    (middleware cfg st now none req).externalReads = 1 ∧
    (middleware cfg st now none req).state.lastStateUpdateTimestamp =
      st.lastStateUpdateTimestamp ∧
    (isMaintenanceRequest cfg req = false → (middleware cfg st now none req).state = st) ∧
    (∀ (now2 : Nat), now ≤ now2 →
      ∀ (extRead2 : Option (MaintenanceState Body)) (req2 : Request Body),
        (middleware cfg (middleware cfg st now none req).state now2 extRead2
          req2).externalReads = 1) := by
  have hfire : (cfg.hasGetExternal && isItTimeToUpdateLocalMaintenanceState cfg st now)
      = true := by rw [hget, ht]; rfl
  have hupd := updateLocalMaintenanceState_fire_none cfg st now hfire
  have hts : (middleware cfg st now none req).state.lastStateUpdateTimestamp =
      st.lastStateUpdateTimestamp := by
    unfold middleware
    rw [hupd, dispatch_timestamp]
  refine ⟨?_, hts, ?_, ?_⟩
  · unfold middleware
    rw [hupd, dispatch_externalReads]
  · intro hmgmt
    unfold middleware
    rw [hupd, dispatch_state_eq_of_not_mgmt cfg _ _ req hmgmt]
  · intro now2 h2 extRead2 req2
    have ht2 : isItTimeToUpdateLocalMaintenanceState cfg
        (middleware cfg st now none req).state now2 = true := by
      apply decide_eq_true
      rw [hts]
      exact lt_of_lt_of_le (of_decide_eq_true ht) h2
    rw [middleware_externalReads, hget, ht2]
    rfl

/-- Witness for C9: with the TTL strictly elapsed at time 70000 and an empty
external read, the timestamp stays 0 and a request at time 70000 again invokes
the read. -/
theorem empty_refresh_keeps_timestamp_and_retries_witness :
    (middleware cfgRead stDefault 70000 none reqHome).externalReads = 1 ∧
    (middleware cfgRead stDefault 70000 none reqHome).state.lastStateUpdateTimestamp =
      stDefault.lastStateUpdateTimestamp ∧
    (isMaintenanceRequest cfgRead reqHome = false →
      (middleware cfgRead stDefault 70000 none reqHome).state = stDefault) ∧
    (∀ (now2 : Nat), 70000 ≤ now2 →
      ∀ (extRead2 : Option (MaintenanceState Nat)) (req2 : Request Nat),
        (middleware cfgRead (middleware cfgRead stDefault 70000 none reqHome).state now2
          extRead2 req2).externalReads = 1) :=
  empty_refresh_keeps_timestamp_and_retries cfgRead stDefault 70000 reqHome rfl (by decide)

end ExpressMaintenance
